import Mathlib

set_option maxHeartbeats 1000000

/- Shallow embedding of the application bootstrap and middleware-composition
   layer of `esmerald/applications.py` (`Esmerald.__init__`,
   `build_user_middleware_stack`, `build_middleware_stack`,
   `build_routes_middleware`, `build_routes_exception_handlers`) together with
   `esmerald/utils/helpers.py` (`is_class_and_subclass`). -/

/-- Python values, as far as truthiness and identity matter for the
configuration merge performed in `Esmerald.__init__`
(`applications.py`, lines 194-239).  List/dict elements are abstracted to
numeric identities; `obj` stands for any other object (config instances,
callables, classes), which is truthy. -/
inductive PyVal where
  | none
  | bool (b : Bool)
  | str (s : String)
  | int (n : Int)
  | list (xs : List Nat)
  | dict (xs : List (Nat × Nat))
  | obj (id : Nat)
deriving DecidableEq

/-- Python truthiness, `bool(x)`: `None`, `False`, `""`, `0`, `[]`, and
an empty dict are falsy, everything else modelled here is truthy. -/
def truthy : PyVal → Bool
  | .none => false
  | .bool b => b
  | .str s => !s.isEmpty
  | .int n => n != 0
  | .list xs => !xs.isEmpty
  | .dict xs => !xs.isEmpty
  | .obj _ => true

/-- Python `a or b`: evaluates to `a` when `a` is truthy, else to `b`. -/
def pyOr (a b : PyVal) : PyVal := if truthy a then a else b

/-- The fields of the `AppConfig` record, in the order they are filled by
`Esmerald.__init__` (`applications.py`, lines 195-239).  The same shape also
serves for the explicit constructor arguments and for the settings defaults,
since the merge reads the homonymous field from each side. -/
structure ConfigFields where
  debug : PyVal
  title : PyVal
  app_name : PyVal
  description : PyVal
  version : PyVal
  summary : PyVal
  contact : PyVal
  terms_of_service : PyVal
  license : PyVal
  servers : PyVal
  secret_key : PyVal
  allowed_hosts : PyVal
  allow_origins : PyVal
  permissions : PyVal
  interceptors : PyVal
  dependencies : PyVal
  csrf_config : PyVal
  cors_config : PyVal
  openapi_config : PyVal
  template_config : PyVal
  static_files_config : PyVal
  session_config : PyVal
  response_class : PyVal
  response_cookies : PyVal
  response_headers : PyVal
  scheduler_class : PyVal
  scheduler_tasks : PyVal
  scheduler_configurations : PyVal
  enable_scheduler : PyVal
  timezone : PyVal
  root_path : PyVal
  middleware : PyVal
  exception_handlers : PyVal
  on_startup : PyVal
  on_shutdown : PyVal
  lifespan : PyVal
  tags : PyVal
  include_in_schema : PyVal
  enable_openapi : PyVal
  redirect_slashes : PyVal
  security : PyVal
deriving DecidableEq

/-- The `AppConfig(...)` construction of `Esmerald.__init__`
(`applications.py`, lines 195-239), field by field.  Most fields are
`explicit or default`; `permissions`, `interceptors`, `middleware` carry an
extra `or []`, and `dependencies`, `scheduler_tasks`,
`scheduler_configurations` an extra `or` empty dict. -/
def buildAppConfig (args app_settings : ConfigFields) : ConfigFields where
  debug := pyOr args.debug app_settings.debug
  title := pyOr args.title app_settings.title
  app_name := pyOr args.app_name app_settings.app_name
  description := pyOr args.description app_settings.description
  version := pyOr args.version app_settings.version
  summary := pyOr args.summary app_settings.summary
  contact := pyOr args.contact app_settings.contact
  terms_of_service := pyOr args.terms_of_service app_settings.terms_of_service
  license := pyOr args.license app_settings.license
  servers := pyOr args.servers app_settings.servers
  secret_key := pyOr args.secret_key app_settings.secret_key
  allowed_hosts := pyOr args.allowed_hosts app_settings.allowed_hosts
  allow_origins := pyOr args.allow_origins app_settings.allow_origins
  permissions := pyOr (pyOr args.permissions app_settings.permissions) (PyVal.list [])
  interceptors := pyOr (pyOr args.interceptors app_settings.interceptors) (PyVal.list [])
  dependencies := pyOr (pyOr args.dependencies app_settings.dependencies) (PyVal.dict [])
  csrf_config := pyOr args.csrf_config app_settings.csrf_config
  cors_config := pyOr args.cors_config app_settings.cors_config
  openapi_config := pyOr args.openapi_config app_settings.openapi_config
  template_config := pyOr args.template_config app_settings.template_config
  static_files_config := pyOr args.static_files_config app_settings.static_files_config
  session_config := pyOr args.session_config app_settings.session_config
  response_class := pyOr args.response_class app_settings.response_class
  response_cookies := pyOr args.response_cookies app_settings.response_cookies
  response_headers := pyOr args.response_headers app_settings.response_headers
  scheduler_class := pyOr args.scheduler_class app_settings.scheduler_class
  scheduler_tasks := pyOr (pyOr args.scheduler_tasks app_settings.scheduler_tasks) (PyVal.dict [])
  scheduler_configurations :=
    pyOr (pyOr args.scheduler_configurations app_settings.scheduler_configurations) (PyVal.dict [])
  enable_scheduler := pyOr args.enable_scheduler app_settings.enable_scheduler
  timezone := pyOr args.timezone app_settings.timezone
  root_path := pyOr args.root_path app_settings.root_path
  middleware := pyOr (pyOr args.middleware app_settings.middleware) (PyVal.list [])
  exception_handlers := pyOr args.exception_handlers app_settings.exception_handlers
  on_startup := pyOr args.on_startup app_settings.on_startup
  on_shutdown := pyOr args.on_shutdown app_settings.on_shutdown
  lifespan := pyOr args.lifespan app_settings.lifespan
  tags := pyOr args.tags app_settings.tags
  include_in_schema := pyOr args.include_in_schema app_settings.include_in_schema
  enable_openapi := pyOr args.enable_openapi app_settings.enable_openapi
  redirect_slashes := pyOr args.redirect_slashes app_settings.redirect_slashes
  security := pyOr args.security app_settings.security

theorem pyOr_pyOr (e d z : PyVal) :
    pyOr (pyOr e d) z = if truthy e then e else if truthy d then d else z := by
  by_cases he : truthy e <;> by_cases hd : truthy d <;> simp [pyOr, he, hd]

/-- A record whose every field is Python `None` (all-falsy input). -/
def noneFields : ConfigFields where
  debug := .none
  title := .none
  app_name := .none
  description := .none
  version := .none
  summary := .none
  contact := .none
  terms_of_service := .none
  license := .none
  servers := .none
  secret_key := .none
  allowed_hosts := .none
  allow_origins := .none
  permissions := .none
  interceptors := .none
  dependencies := .none
  csrf_config := .none
  cors_config := .none
  openapi_config := .none
  template_config := .none
  static_files_config := .none
  session_config := .none
  response_class := .none
  response_cookies := .none
  response_headers := .none
  scheduler_class := .none
  scheduler_tasks := .none
  scheduler_configurations := .none
  enable_scheduler := .none
  timezone := .none
  root_path := .none
  middleware := .none
  exception_handlers := .none
  on_startup := .none
  on_shutdown := .none
  lifespan := .none
  tags := .none
  include_in_schema := .none
  enable_openapi := .none
  redirect_slashes := .none
  security := .none

/-- C1 counterexample: with the explicit `permissions` argument falsy (`None`)
and the settings default also `None`, the merged `permissions` field of the record
is the normalised empty list, not the settings default — refuting the claim
that every field equals the explicit value when truthy and the settings
default otherwise. -/
theorem app_config_merge_claim_cex :
    truthy noneFields.permissions = false ∧
    (buildAppConfig noneFields noneFields).permissions ≠ noneFields.permissions := by
  decide

/-- C1 amended: every `AppConfig` field equals the explicit argument when that
argument is truthy and the settings default otherwise, EXCEPT the six
normalised fields (`permissions`, `interceptors`, `dependencies`,
`scheduler_tasks`, `scheduler_configurations`, `middleware`), which fall back
to an empty list/dict when both the explicit argument and the settings default
are falsy. -/
theorem app_config_merge_amended :
    ∀ args s : ConfigFields,
      (buildAppConfig args s).debug = (if truthy args.debug then args.debug else s.debug)
      ∧ (buildAppConfig args s).title = (if truthy args.title then args.title else s.title)
      ∧ (buildAppConfig args s).app_name =
          (if truthy args.app_name then args.app_name else s.app_name)
      ∧ (buildAppConfig args s).description =
          (if truthy args.description then args.description else s.description)
      ∧ (buildAppConfig args s).version = (if truthy args.version then args.version else s.version)
      ∧ (buildAppConfig args s).summary = (if truthy args.summary then args.summary else s.summary)
      ∧ (buildAppConfig args s).contact = (if truthy args.contact then args.contact else s.contact)
      ∧ (buildAppConfig args s).terms_of_service =
          (if truthy args.terms_of_service then args.terms_of_service else s.terms_of_service)
      ∧ (buildAppConfig args s).license = (if truthy args.license then args.license else s.license)
      ∧ (buildAppConfig args s).servers = (if truthy args.servers then args.servers else s.servers)
      ∧ (buildAppConfig args s).secret_key =
          (if truthy args.secret_key then args.secret_key else s.secret_key)
      ∧ (buildAppConfig args s).allowed_hosts =
          (if truthy args.allowed_hosts then args.allowed_hosts else s.allowed_hosts)
      ∧ (buildAppConfig args s).allow_origins =
          (if truthy args.allow_origins then args.allow_origins else s.allow_origins)
      ∧ (buildAppConfig args s).permissions =
          (if truthy args.permissions then args.permissions
           else if truthy s.permissions then s.permissions else PyVal.list [])
      ∧ (buildAppConfig args s).interceptors =
          (if truthy args.interceptors then args.interceptors
           else if truthy s.interceptors then s.interceptors else PyVal.list [])
      ∧ (buildAppConfig args s).dependencies =
          (if truthy args.dependencies then args.dependencies
           else if truthy s.dependencies then s.dependencies else PyVal.dict [])
      ∧ (buildAppConfig args s).csrf_config =
          (if truthy args.csrf_config then args.csrf_config else s.csrf_config)
      ∧ (buildAppConfig args s).cors_config =
          (if truthy args.cors_config then args.cors_config else s.cors_config)
      ∧ (buildAppConfig args s).openapi_config =
          (if truthy args.openapi_config then args.openapi_config else s.openapi_config)
      ∧ (buildAppConfig args s).template_config =
          (if truthy args.template_config then args.template_config else s.template_config)
      ∧ (buildAppConfig args s).static_files_config =
          (if truthy args.static_files_config then args.static_files_config
           else s.static_files_config)
      ∧ (buildAppConfig args s).session_config =
          (if truthy args.session_config then args.session_config else s.session_config)
      ∧ (buildAppConfig args s).response_class =
          (if truthy args.response_class then args.response_class else s.response_class)
      ∧ (buildAppConfig args s).response_cookies =
          (if truthy args.response_cookies then args.response_cookies else s.response_cookies)
      ∧ (buildAppConfig args s).response_headers =
          (if truthy args.response_headers then args.response_headers else s.response_headers)
      ∧ (buildAppConfig args s).scheduler_class =
          (if truthy args.scheduler_class then args.scheduler_class else s.scheduler_class)
      ∧ (buildAppConfig args s).scheduler_tasks =
          (if truthy args.scheduler_tasks then args.scheduler_tasks
           else if truthy s.scheduler_tasks then s.scheduler_tasks else PyVal.dict [])
      ∧ (buildAppConfig args s).scheduler_configurations =
          (if truthy args.scheduler_configurations then args.scheduler_configurations
           else if truthy s.scheduler_configurations then s.scheduler_configurations
           else PyVal.dict [])
      ∧ (buildAppConfig args s).enable_scheduler =
          (if truthy args.enable_scheduler then args.enable_scheduler else s.enable_scheduler)
      ∧ (buildAppConfig args s).timezone =
          (if truthy args.timezone then args.timezone else s.timezone)
      ∧ (buildAppConfig args s).root_path =
          (if truthy args.root_path then args.root_path else s.root_path)
      ∧ (buildAppConfig args s).middleware =
          (if truthy args.middleware then args.middleware
           else if truthy s.middleware then s.middleware else PyVal.list [])
      ∧ (buildAppConfig args s).exception_handlers =
          (if truthy args.exception_handlers then args.exception_handlers
           else s.exception_handlers)
      ∧ (buildAppConfig args s).on_startup =
          (if truthy args.on_startup then args.on_startup else s.on_startup)
      ∧ (buildAppConfig args s).on_shutdown =
          (if truthy args.on_shutdown then args.on_shutdown else s.on_shutdown)
      ∧ (buildAppConfig args s).lifespan =
          (if truthy args.lifespan then args.lifespan else s.lifespan)
      ∧ (buildAppConfig args s).tags = (if truthy args.tags then args.tags else s.tags)
      ∧ (buildAppConfig args s).include_in_schema =
          (if truthy args.include_in_schema then args.include_in_schema else s.include_in_schema)
      ∧ (buildAppConfig args s).enable_openapi =
          (if truthy args.enable_openapi then args.enable_openapi else s.enable_openapi)
      ∧ (buildAppConfig args s).redirect_slashes =
          (if truthy args.redirect_slashes then args.redirect_slashes else s.redirect_slashes)
      ∧ (buildAppConfig args s).security =
          (if truthy args.security then args.security else s.security) := by
  intro args s
  exact ⟨rfl, rfl, rfl, rfl, rfl, rfl, rfl, rfl, rfl, rfl, rfl, rfl, rfl,
    pyOr_pyOr _ _ _, pyOr_pyOr _ _ _, pyOr_pyOr _ _ _, rfl, rfl, rfl, rfl, rfl, rfl, rfl,
    rfl, rfl, rfl, pyOr_pyOr _ _ _, pyOr_pyOr _ _ _, rfl, rfl, rfl, pyOr_pyOr _ _ _, rfl,
    rfl, rfl, rfl, rfl, rfl, rfl, rfl, rfl⟩

/-- Keys of the exception-handler dict: the integer status key (`500` in the
catch-all check), the generic `Exception` class, or a specific exception
class identified by a numeric id (e.g. `ImproperlyConfigured`,
`ValidationErrorException`). -/
inductive EKey where
  | int (n : Nat)
  | excType
  | exc (id : Nat)
deriving DecidableEq

/-- An exception-handler dict: Python-`dict` modelled as an association list
without duplicate keys, insertion-ordered.  Handler callables are numeric
identities. -/
def Dict : Type := List (EKey × Nat)

instance : DecidableEq Dict := inferInstanceAs (DecidableEq (List (EKey × Nat)))

instance : Append Dict := inferInstanceAs (Append (List (EKey × Nat)))

/-- Assignment `d[k] = v`: overwrite in place the value of an existing key (keeping its
position, as a Python dict does) or append a new entry. -/
def dictSet : Dict → EKey → Nat → Dict
  | [], k, v => [(k, v)]
  | (k0, v0) :: rest, k, v =>
      if k0 = k then (k0, v) :: rest else (k0, v0) :: dictSet rest k v

/-- Update `d.update(e)`: set every entry of `e` into `d`, in the order of `e`. -/
def dictUpdate (d e : Dict) : Dict := e.foldl (fun a p => dictSet a p.1 p.2) d

/-- Lookup `d.get(k)`. -/
def dictLookup : Dict → EKey → Option Nat
  | [], _ => Option.none
  | (k0, v) :: rest, k => if k0 = k then some v else dictLookup rest k

theorem dictLookup_dictSet (d : Dict) (k0 : EKey) (v : Nat) (k : EKey) :
    dictLookup (dictSet d k0 v) k = if k0 = k then some v else dictLookup d k := by
  induction d with
  | nil => simp [dictSet, dictLookup]
  | cons p rest ih =>
      obtain ⟨kp, vp⟩ := p
      by_cases h : kp = k0
      · subst h
        by_cases hk : kp = k <;> simp [dictSet, dictLookup, hk]
      · by_cases hk : kp = k
        · subst hk
          simp [dictSet, dictLookup, h, Ne.symm h]
        · simp [dictSet, dictLookup, h, hk, ih]

/-- A nested application mounted behind an `Include`: an `Esmerald` /
`ChildEsmerald` instance (or any other ASGI app, when `isEsmerald` is false),
carrying its own internal exception handlers and middleware, which the parent
never reads. -/
structure NestedApp where
  isEsmerald : Bool
  appExceptionHandlers : Dict
  appMiddleware : List Nat

/-- A middleware entry as found in route/app declarations: either already a
`StarletteMiddleware` instance or a raw middleware class that
`build_user_middleware_stack` will wrap. -/
inductive Mw where
  | starletteM (id : Nat)
  | rawM (id : Nat)
deriving DecidableEq

mutual
/-- A node of the route tree: a `Gateway`/`WebSocketGateway` leaf (with its
own middleware/exception handlers and those of its bound handler), or an
`Include` (with its own declared handlers/middleware, an optional mounted
`app`, and child routes). -/
inductive RouteNode where
  | gateway (middleware : List Mw) (handlerMiddleware : List Mw)
      (exceptionHandlers : Dict) (handlerExceptionHandlers : Dict)
  | includeR (exceptionHandlers : Dict) (middleware : List Mw)
      (app : Option NestedApp) (routes : RouteList)
/-- A list of child routes (spelled as a mutual inductive so that the
tree walks below are structurally recursive). -/
inductive RouteList where
  | nil
  | cons (head : RouteNode) (tail : RouteList)
end

/-- Models `Esmerald.build_routes_middleware` (`applications.py`, lines 470-492):
for an `Include` whose `app` is an `Esmerald`/`ChildEsmerald`, return the
accumulator unchanged (boundary); any other `Include` also falls through to
the final `return` without touching its children; a `Gateway` extends the
accumulator with its middleware and then (if truthy) that of its handler. -/
def build_routes_middleware (route : RouteNode) (middlewares : List Mw) : List Mw :=
  match route with
  | .includeR _eh _mw _app _routes =>
      -- both the boundary early-return and the fall-through return the
      -- accumulator unchanged: an Include is not a Gateway and the walk
      -- never recurses into `route.routes` here
      middlewares
  | .gateway mw hmw _eh _heh =>
      let acc := middlewares ++ mw
      if hmw.isEmpty then acc else acc ++ hmw

mutual
/-- Models `Esmerald.build_routes_exception_handlers` (`applications.py`, lines
494-521): an `Include` first merges its own declared handlers, then stops if
its `app` is an `Esmerald`/`ChildEsmerald`, else recurses over its children;
a `Gateway` merges its own handlers and then (if truthy) those of its handler. -/
def build_routes_exception_handlers (route : RouteNode) (exception_handlers : Dict) : Dict :=
  match route with
  | .includeR eh _mw app routes =>
      let acc := dictUpdate exception_handlers eh
      match app with
      | some a =>
          if a.isEsmerald then acc
          else build_routes_exception_handlers_list routes acc
      | Option.none => build_routes_exception_handlers_list routes acc
  | .gateway _mw _hmw eh heh =>
      let acc := dictUpdate exception_handlers eh
      if heh.isEmpty then acc else dictUpdate acc heh
/-- The `for _route in route.routes:` loop threading the accumulator. -/
def build_routes_exception_handlers_list (routes : RouteList) (exception_handlers : Dict) :
    Dict :=
  match routes with
  | .nil => exception_handlers
  | .cons r rs =>
      build_routes_exception_handlers_list rs (build_routes_exception_handlers r exception_handlers)
end

/-- The `for route in self.routes or []:` loop of `build_user_middleware_stack`
(`applications.py`, lines 551-552): the contribution of each route is collected
with a fresh accumulator and extended onto the running list. -/
def collectRoutesMiddleware (routes : List RouteNode) : List Mw :=
  routes.foldl (fun acc r => acc ++ build_routes_middleware r []) []

/-- The `for route in self.routes or []:` loop of `build_middleware_stack`
(`applications.py`, lines 587-588): the per-kind map is `update`d with each
contribution of each route, collected with a fresh accumulator. -/
def collectRoutesExceptionHandlers (m : Dict) (routes : List RouteNode) : Dict :=
  routes.foldl (fun acc r => dictUpdate acc (build_routes_exception_handlers r [])) m

/-- Erase the internal handler map and middleware of a mounted
`Esmerald`/`ChildEsmerald` application (identity on any other mounted app). -/
def scrubApp (a : NestedApp) : NestedApp :=
  if a.isEsmerald then { a with appExceptionHandlers := [], appMiddleware := [] } else a

mutual
/-- Replace the internal data of every nested-application boundary by nothing,
leaving all parent-side declarations intact. -/
def scrubRoute : RouteNode → RouteNode
  | .gateway mw hmw eh heh => .gateway mw hmw eh heh
  | .includeR eh mw app routes => .includeR eh mw (app.map scrubApp) (scrubRoutes routes)
def scrubRoutes : RouteList → RouteList
  | .nil => .nil
  | .cons r rs => .cons (scrubRoute r) (scrubRoutes rs)
end

theorem scrubApp_isEsmerald (a : NestedApp) : (scrubApp a).isEsmerald = a.isEsmerald := by
  unfold scrubApp
  split <;> rfl

mutual
theorem build_routes_exception_handlers_scrub (r : RouteNode) (acc : Dict) :
    build_routes_exception_handlers (scrubRoute r) acc =
      build_routes_exception_handlers r acc :=
  match r with
  | .gateway _ _ _ _ => rfl
  | .includeR eh mw app routes => by
      cases app with
      | none =>
          simp only [scrubRoute, Option.map_none', build_routes_exception_handlers]
          exact build_routes_exception_handlers_list_scrub routes (dictUpdate acc eh)
      | some a =>
          simp only [scrubRoute, Option.map_some', build_routes_exception_handlers,
            scrubApp_isEsmerald]
          cases h : a.isEsmerald with
          | true => simp
          | false =>
              simp only [Bool.false_eq_true, if_false]
              exact build_routes_exception_handlers_list_scrub routes (dictUpdate acc eh)
theorem build_routes_exception_handlers_list_scrub (rs : RouteList) (acc : Dict) :
    build_routes_exception_handlers_list (scrubRoutes rs) acc =
      build_routes_exception_handlers_list rs acc :=
  match rs with
  | .nil => rfl
  | .cons r rest => by
      simp only [scrubRoutes, build_routes_exception_handlers_list,
        build_routes_exception_handlers_scrub r acc]
      exact build_routes_exception_handlers_list_scrub rest _
end

theorem build_routes_middleware_scrub (r : RouteNode) (acc : List Mw) :
    build_routes_middleware (scrubRoute r) acc = build_routes_middleware r acc := by
  cases r <;> rfl

/-- C4: nested-application isolation.  (i) The merged parent exception-handler
map and (ii) its collected route middleware are unchanged when every mounted
internal handlers and middleware of every mounted `Esmerald`/`ChildEsmerald` are
erased — so nothing internal to a nested application ever reaches that parent
map or chain; (iii) at a boundary `Include` the handler walk merges only the
handlers declared on the `Include` itself and does not recurse into children; (iv) an
`Include` contributes no middleware at all. -/
theorem nested_app_isolation :
    (∀ (routes : List RouteNode) (m : Dict),
        collectRoutesExceptionHandlers m (routes.map scrubRoute) =
          collectRoutesExceptionHandlers m routes)
    ∧ (∀ routes : List RouteNode,
        collectRoutesMiddleware (routes.map scrubRoute) = collectRoutesMiddleware routes)
    ∧ (∀ (eh : Dict) (mw : List Mw) (a : NestedApp) (routes : RouteList) (acc : Dict),
        a.isEsmerald = true →
          build_routes_exception_handlers (RouteNode.includeR eh mw (some a) routes) acc =
            dictUpdate acc eh)
    ∧ (∀ (eh : Dict) (mw : List Mw) (app : Option NestedApp) (routes : RouteList)
        (acc : List Mw),
        build_routes_middleware (RouteNode.includeR eh mw app routes) acc = acc) := by
  refine ⟨?_, ?_, ?_, ?_⟩
  · intro routes m
    induction routes generalizing m with
    | nil => rfl
    | cons r rest ih =>
        simp only [List.map_cons, collectRoutesExceptionHandlers, List.foldl_cons,
          build_routes_exception_handlers_scrub]
        exact ih _
  · intro routes
    induction routes with
    | nil => rfl
    | cons r rest ih =>
        simp only [List.map_cons, collectRoutesMiddleware, List.foldl_cons,
          build_routes_middleware_scrub]
        have h2 : ∀ (l : List RouteNode) (a b : List Mw),
            l.foldl (fun acc r => acc ++ build_routes_middleware r []) (a ++ b) =
              a ++ l.foldl (fun acc r => acc ++ build_routes_middleware r []) b := by
          intro l
          induction l with
          | nil => intro a b; rfl
          | cons x xs ihx =>
              intro a b
              simp only [List.foldl_cons, List.append_assoc]
              exact ihx a _
        calc ((rest.map scrubRoute).foldl (fun acc r => acc ++ build_routes_middleware r [])
                ([] ++ build_routes_middleware r []))
            = build_routes_middleware r [] ++ collectRoutesMiddleware (rest.map scrubRoute) := by
              simp only [List.nil_append, collectRoutesMiddleware]
              have := h2 (rest.map scrubRoute) (build_routes_middleware r []) []
              simpa using this
          _ = build_routes_middleware r [] ++ collectRoutesMiddleware rest := by rw [ih]
          _ = rest.foldl (fun acc r => acc ++ build_routes_middleware r [])
                ([] ++ build_routes_middleware r []) := by
              simp only [List.nil_append, collectRoutesMiddleware]
              have := h2 rest (build_routes_middleware r []) []
              simpa using this.symm
  · intro eh mw a routes acc ha
    simp [build_routes_exception_handlers, ha]
  · intro eh mw app routes acc
    rfl

/-- C4 witness: at a concrete boundary `Include` (mounted `ChildEsmerald`
with internal handlers and middleware, plus a nested gateway), the walk stops
and merges only the handler declared on the `Include` itself. -/
theorem nested_app_isolation_witness :
    build_routes_exception_handlers
        (RouteNode.includeR [(EKey.exc 1, 5)] []
          (some ⟨true, [(EKey.exc 9, 99)], [7]⟩)
          (RouteList.cons (RouteNode.gateway [] [] [(EKey.exc 9, 99)] []) RouteList.nil)) []
      = dictUpdate [] [(EKey.exc 1, 5)] :=
  nested_app_isolation.2.2.1 [(EKey.exc 1, 5)] []
    ⟨true, [(EKey.exc 9, 99)], [7]⟩
    (RouteList.cons (RouteNode.gateway [] [] [(EKey.exc 9, 99)] []) RouteList.nil) [] rfl

/-- The `key in (500, Exception)` test of `build_middleware_stack`
(`applications.py`, line 582). -/
def isCatchAll : EKey → Bool
  | .int n => n == 500
  | .excType => true
  | .exc _ => false

/-- The partition loop of `build_middleware_stack` (`applications.py`, lines
578-585): iterate `self.exception_handlers.items()`; a catch-all key becomes
the `error_handler`, any other entry is copied into the fresh per-kind map. -/
def partitionHandlers (handlers : Dict) : Option Nat × Dict :=
  handlers.foldl
    (fun p kv => if isCatchAll kv.1 then (some kv.2, p.2) else (p.1, dictSet p.2 kv.1 kv.2))
    (Option.none, [])

/-- Lines 577-588 of `applications.py`: partition the application-level
handlers, then `update` the per-kind map with the contribution of each route. -/
def build_exception_config (appHandlers : Dict) (routes : List RouteNode) :
    Option Nat × Dict :=
  let p := partitionHandlers appHandlers
  let error_handler := p.1
  let exception_handlers := p.2
  let exception_handlers := collectRoutesExceptionHandlers exception_handlers routes
  (error_handler, exception_handlers)

/-- The last value bound to a catch-all key (`500` or `Exception`) in the
application-level handler dict, if any. -/
def lastCatchAll : Dict → Option Nat
  | [] => Option.none
  | (k, v) :: rest =>
      match lastCatchAll rest with
      | some w => some w
      | Option.none => if isCatchAll k then some v else Option.none

theorem partitionHandlers_fold_fst (d : Dict) :
    ∀ acc : Option Nat × Dict,
      (d.foldl
          (fun p kv =>
            if isCatchAll kv.1 then (some kv.2, p.2) else (p.1, dictSet p.2 kv.1 kv.2))
          acc).1 =
        match lastCatchAll d with
        | some w => some w
        | Option.none => acc.1 := by
  induction d with
  | nil => intro acc; rfl
  | cons kv rest ih =>
      intro acc
      obtain ⟨k, v⟩ := kv
      by_cases h : isCatchAll k
      · simp only [List.foldl_cons, h, if_true, ih, lastCatchAll]
        cases lastCatchAll rest <;> simp
      · simp only [List.foldl_cons, h, if_false, ih, lastCatchAll]
        cases lastCatchAll rest <;> simp [h]

/-- The last value bound to key `k` in an association list, if any
(Python-dict semantics: the latest assignment wins). -/
def lastAssoc : Dict → EKey → Option Nat
  | [], _ => Option.none
  | (k0, v) :: rest, k =>
      match lastAssoc rest k with
      | some w => some w
      | Option.none => if k0 = k then some v else Option.none

theorem dictLookup_foldl_dictSet (d : Dict) :
    ∀ (m : Dict) (k : EKey),
      dictLookup (d.foldl (fun m kv => dictSet m kv.1 kv.2) m) k =
        match lastAssoc d k with
        | some w => some w
        | Option.none => dictLookup m k := by
  induction d with
  | nil => intro m k; rfl
  | cons kv rest ih =>
      intro m k
      obtain ⟨k0, v0⟩ := kv
      simp only [List.foldl_cons, ih, lastAssoc]
      cases lastAssoc rest k with
      | some w => rfl
      | none =>
          by_cases h : k0 = k
          · simp [dictLookup_dictSet, h]
          · simp [dictLookup_dictSet, h]

theorem partitionHandlers_fold_snd_lookup (d : Dict) :
    ∀ (acc : Option Nat × Dict) (k : EKey), isCatchAll k = false →
      dictLookup
          (d.foldl
            (fun p kv =>
              if isCatchAll kv.1 then (some kv.2, p.2) else (p.1, dictSet p.2 kv.1 kv.2))
            acc).2 k =
        match lastAssoc d k with
        | some w => some w
        | Option.none => dictLookup acc.2 k := by
  induction d with
  | nil => intro acc k _; rfl
  | cons kv rest ih =>
      intro acc k hk
      obtain ⟨k0, v0⟩ := kv
      by_cases h : isCatchAll k0
      · have hne : k0 ≠ k := by
          intro he
          rw [he, hk] at h
          exact Bool.false_ne_true h
        simp only [List.foldl_cons, h, if_true, ih _ k hk, lastAssoc]
        cases lastAssoc rest k with
        | some w => rfl
        | none => simp [hne]
      · simp only [List.foldl_cons, h, if_false, ih _ k hk, lastAssoc]
        cases lastAssoc rest k with
        | some w => rfl
        | none =>
            by_cases h2 : k0 = k
            · simp [dictLookup_dictSet, h2]
            · simp [dictLookup_dictSet, h2]

theorem collectRoutesExceptionHandlers_nil (m : Dict) :
    collectRoutesExceptionHandlers m [] = m := rfl

/-- C3 counterexample input: a route whose gateway registers a handler under
the catch-all status key `500`. -/
def c3route : RouteNode := RouteNode.gateway [] [] [(EKey.int 500, 7)] []

/-- C3 counterexample: a route-contributed handler keyed by the catch-all
status `500` does NOT become the designated error handler and is NOT removed
from the per-kind map — it stays in the per-kind map and the error handler
remains unset, refuting the claim for the combined (application-level plus
route-contributed) configuration. -/
theorem exception_partition_claim_cex :
    (build_exception_config [] [c3route]).1 ≠ some 7 ∧
    dictLookup (build_exception_config [] [c3route]).2 (EKey.int 500) = some 7 := by
  decide

/-- C3 amended: the catch-all partition applies only to the application-level
handler map.  (i) Route contributions never change the designated error
handler; (ii) the error handler is the last catch-all-keyed application-level
entry; (iii) catch-all keys are absent from the partitioned application-level
per-kind map; (iv) every non-catch-all application-level entry keeps its value
in the partitioned map; (v) route-contributed entries — whatever their key,
catch-all included — are merged into the per-kind map after the partition. -/
theorem exception_partition_amended :
    ∀ (appHandlers : Dict) (routes : List RouteNode),
      (build_exception_config appHandlers routes).1 = (partitionHandlers appHandlers).1
      ∧ (partitionHandlers appHandlers).1 = lastCatchAll appHandlers
      ∧ (∀ k, isCatchAll k = true →
          dictLookup (partitionHandlers appHandlers).2 k = Option.none)
      ∧ (∀ k, isCatchAll k = false →
          dictLookup (partitionHandlers appHandlers).2 k =
            dictLookup (dictUpdate [] appHandlers) k)
      ∧ (build_exception_config appHandlers routes).2 =
          collectRoutesExceptionHandlers (partitionHandlers appHandlers).2 routes := by
  intro appHandlers routes
  refine ⟨rfl, ?_, ?_, ?_, rfl⟩
  · unfold partitionHandlers
    rw [partitionHandlers_fold_fst]
    cases lastCatchAll appHandlers <;> rfl
  · intro k hk
    unfold partitionHandlers
    have key : ∀ (d : Dict) (acc : Option Nat × Dict),
        dictLookup acc.2 k = Option.none →
          dictLookup
              (d.foldl
                (fun p kv =>
                  if isCatchAll kv.1 then (some kv.2, p.2) else (p.1, dictSet p.2 kv.1 kv.2))
                acc).2 k = Option.none := by
      intro d
      induction d with
      | nil => intro acc h; exact h
      | cons kv rest ih =>
          intro acc h
          obtain ⟨k0, v0⟩ := kv
          by_cases h0 : isCatchAll k0
          · simp only [List.foldl_cons, h0, if_true]
            exact ih _ h
          · simp only [List.foldl_cons, h0, if_false]
            have hne : k0 ≠ k := by
              intro he
              rw [he] at h0
              rw [hk] at h0
              exact h0 rfl
            refine ih _ ?_
            simpa [dictLookup_dictSet, hne] using h
    exact key appHandlers (Option.none, []) rfl
  · intro k hk
    unfold partitionHandlers dictUpdate
    rw [partitionHandlers_fold_snd_lookup appHandlers (Option.none, []) k hk,
      dictLookup_foldl_dictSet appHandlers [] k]

/-- C3 amended witness: for the concrete application-level map
`[(exc 3, 9), (500, 7)]`, the error handler is `7`, the catch-all key is gone
from the per-kind map, and the specific key `exc 3` keeps its handler `9`. -/
theorem exception_partition_amended_witness :
    (partitionHandlers [(EKey.exc 3, 9), (EKey.int 500, 7)]).1 = some 7
    ∧ dictLookup (partitionHandlers [(EKey.exc 3, 9), (EKey.int 500, 7)]).2
        (EKey.int 500) = Option.none
    ∧ dictLookup (partitionHandlers [(EKey.exc 3, 9), (EKey.int 500, 7)]).2
        (EKey.exc 3) = some 9 := by
  have h := exception_partition_amended [(EKey.exc 3, 9), (EKey.int 500, 7)] []
  refine ⟨?_, h.2.2.1 (EKey.int 500) rfl, ?_⟩
  · rw [h.2.1]
    rfl
  · rw [h.2.2.2.1 (EKey.exc 3) rfl]
    rfl

/-- An entry of the `user_middleware` list produced by
`build_user_middleware_stack`: one of the four built-ins, a
`StarletteMiddleware` passed through, or a raw middleware wrapped in
`StarletteMiddleware(middleware)`. -/
inductive MwEntry where
  | trustedHost (hosts : List Nat)
  | cors (cfg : Nat)
  | csrf (cfg : Nat)
  | session (cfg : Nat)
  | starlette (id : Nat)
  | wrapped (id : Nat)
deriving DecidableEq

/-- The `for middleware in self.middleware or []:` normalisation
(`applications.py`, lines 556-560). -/
def wrapMw : Mw → MwEntry
  | .starletteM id => .starlette id
  | .rawM id => .wrapped id

/-- The attributes of an `Esmerald` instance that the two stack builders read
(set from the merged `AppConfig` in `__init__`, lines 241-303).
`router_middleware` is `self.router.middleware` (line 550); `routes` is the
Starlette `routes` property, i.e. `self.router.routes`. -/
structure AppState where
  debug : Bool
  allowed_hosts : List Nat
  cors_config : Option Nat
  csrf_config : Option Nat
  session_config : Option Nat
  middleware : List Mw
  router_middleware : List Mw
  exception_handlers : Dict
  async_exit_config : Nat
  routes : List RouteNode

/-- Models `Esmerald.build_user_middleware_stack` (`applications.py`, lines 523-561).
Returns the `user_middleware` list together with the post-call application
state: `self.middleware += handlers_middleware` (line 554) extends the
middleware list of the configuration record in place, so the state comes back with
that field changed. -/
def build_user_middleware_stack (st : AppState) : List MwEntry × AppState :=
  let user_middleware : List MwEntry := []
  let user_middleware :=
    if st.allowed_hosts.isEmpty then user_middleware
    else user_middleware ++ [MwEntry.trustedHost st.allowed_hosts]
  let user_middleware :=
    match st.cors_config with
    | some c => user_middleware ++ [MwEntry.cors c]
    | Option.none => user_middleware
  let user_middleware :=
    match st.csrf_config with
    | some c => user_middleware ++ [MwEntry.csrf c]
    | Option.none => user_middleware
  let user_middleware :=
    match st.session_config with
    | some c => user_middleware ++ [MwEntry.session c]
    | Option.none => user_middleware
  let handlers_middleware := st.router_middleware ++ collectRoutesMiddleware st.routes
  let self_middleware := st.middleware ++ handlers_middleware
  let user_middleware := user_middleware ++ self_middleware.map wrapMw
  (user_middleware, { st with middleware := self_middleware })

/-- A constructed layer of the final chain (`applications.py`, lines
590-608): the outer `EsmeraldAPIExceptionMiddleware` typed-error boundary,
the inner `ExceptionMiddleware` catch-all, the `AsyncExitStackMiddleware`
resource-cleanup layer, or one wrapped user middleware entry. -/
inductive Layer where
  | esmeraldAPIException (handlers : Dict) (error_handler : Option Nat) (debug : Bool)
  | exceptionMw (handlers : Dict) (debug : Bool)
  | asyncExitStack (cfg : Nat)
  | user (m : MwEntry)
deriving DecidableEq

/-- The wrapped ASGI application: the router, or a layer wrapping an inner
application. -/
inductive ASGIApp where
  | router
  | layer (l : Layer) (inner : ASGIApp)
deriving DecidableEq

/-- Models `Esmerald.build_middleware_stack` (`applications.py`, lines 563-614):
partition the application-level handlers and merge the route-contributed ones
(lines 577-588 = `build_exception_config`), assemble the middleware list, and
wrap the router innermost-first by iterating the list in reverse. -/
def build_middleware_stack (st : AppState) (user_middleware : List MwEntry) : ASGIApp :=
  let debug := st.debug
  let ec := build_exception_config st.exception_handlers st.routes
  let error_handler := ec.1
  let exception_handlers := ec.2
  let middleware :=
    [Layer.esmeraldAPIException exception_handlers error_handler debug]
      ++ user_middleware.map Layer.user
      ++ [Layer.exceptionMw exception_handlers debug,
          Layer.asyncExitStack st.async_exit_config]
  middleware.reverse.foldl (fun app l => ASGIApp.layer l app) ASGIApp.router

/-- The layers of a wrapped application, outermost first. -/
def layersOf : ASGIApp → List Layer
  | .router => []
  | .layer l inner => l :: layersOf inner

/-- The innermost wrapped target. -/
def coreOf : ASGIApp → ASGIApp
  | .router => .router
  | .layer _ inner => coreOf inner

def isTypedErrorBoundary : Layer → Bool
  | .esmeraldAPIException _ _ _ => true
  | _ => false

def isCatchAllBoundary : Layer → Bool
  | .exceptionMw _ _ => true
  | _ => false

def isResourceCleanup : Layer → Bool
  | .asyncExitStack _ => true
  | _ => false

theorem layersOf_wrap (l : List Layer) (a : ASGIApp) :
    layersOf (l.reverse.foldl (fun app c => ASGIApp.layer c app) a) = l ++ layersOf a := by
  rw [List.foldl_reverse]
  induction l with
  | nil => rfl
  | cons x xs ih => simp [List.foldr_cons, layersOf, ih]

theorem coreOf_wrap (l : List Layer) (a : ASGIApp) :
    coreOf (l.reverse.foldl (fun app c => ASGIApp.layer c app) a) = coreOf a := by
  rw [List.foldl_reverse]
  induction l with
  | nil => rfl
  | cons x xs ih => simp [List.foldr_cons, coreOf, ih]

theorem countP_map_user_typed (um : List MwEntry) :
    ((um.map Layer.user).countP isTypedErrorBoundary) = 0 := by
  induction um with
  | nil => rfl
  | cons x xs ih => simp [List.countP_cons, isTypedErrorBoundary, ih]

theorem countP_map_user_catchAll (um : List MwEntry) :
    ((um.map Layer.user).countP isCatchAllBoundary) = 0 := by
  induction um with
  | nil => rfl
  | cons x xs ih => simp [List.countP_cons, isCatchAllBoundary, ih]

theorem countP_map_user_cleanup (um : List MwEntry) :
    ((um.map Layer.user).countP isResourceCleanup) = 0 := by
  induction um with
  | nil => rfl
  | cons x xs ih => simp [List.countP_cons, isResourceCleanup, ih]

/-- C2: for every application state and every user middleware list (0, 1, or N
entries), the constructed chain is, outermost first: one
`EsmeraldAPIExceptionMiddleware` typed-error boundary, then all user
middleware in order, then the `ExceptionMiddleware` catch-all and the
`AsyncExitStackMiddleware` resource-cleanup layer, with the router as the
innermost wrapped target; each boundary kind occurs exactly once. -/
theorem middleware_stack_structure :
    ∀ (st : AppState) (um : List MwEntry),
      layersOf (build_middleware_stack st um) =
        Layer.esmeraldAPIException (build_exception_config st.exception_handlers st.routes).2
            (build_exception_config st.exception_handlers st.routes).1 st.debug
          :: (um.map Layer.user
            ++ [Layer.exceptionMw (build_exception_config st.exception_handlers st.routes).2
                  st.debug,
                Layer.asyncExitStack st.async_exit_config])
      ∧ coreOf (build_middleware_stack st um) = ASGIApp.router
      ∧ (layersOf (build_middleware_stack st um)).countP isTypedErrorBoundary = 1
      ∧ (layersOf (build_middleware_stack st um)).countP isCatchAllBoundary = 1
      ∧ (layersOf (build_middleware_stack st um)).countP isResourceCleanup = 1 := by
  intro st um
  have hl : layersOf (build_middleware_stack st um) =
      Layer.esmeraldAPIException (build_exception_config st.exception_handlers st.routes).2
          (build_exception_config st.exception_handlers st.routes).1 st.debug
        :: (um.map Layer.user
          ++ [Layer.exceptionMw (build_exception_config st.exception_handlers st.routes).2
                st.debug,
              Layer.asyncExitStack st.async_exit_config]) := by
    unfold build_middleware_stack
    rw [layersOf_wrap]
    simp [layersOf]
  refine ⟨hl, ?_, ?_, ?_, ?_⟩
  · unfold build_middleware_stack
    rw [coreOf_wrap]
    rfl
  · rw [hl]
    simp [List.countP_cons, List.countP_append, isTypedErrorBoundary,
      countP_map_user_typed]
  · rw [hl]
    simp [List.countP_cons, List.countP_append, isCatchAllBoundary,
      countP_map_user_catchAll]
  · rw [hl]
    simp [List.countP_cons, List.countP_append, isResourceCleanup,
      countP_map_user_cleanup]

/-- The middleware a single top-level route node contributes: for a `Gateway` its
own list then that of its handler; an `Include` contributes nothing. -/
def topLevelGatewayMw : RouteNode → List Mw
  | .gateway mw hmw _ _ => mw ++ hmw
  | .includeR _ _ _ _ => []

/-- C6 counterexample input: a plain (non-boundary) `Include` with a nested
`Gateway` that declares middleware `rawM 1`. -/
def c6include : RouteNode :=
  RouteNode.includeR [] [] Option.none
    (RouteList.cons (RouteNode.gateway [Mw.rawM 1] [] [] []) RouteList.nil)

/-- C6 counterexample: the claim says the walk appends the middleware of every
`Gateway` anywhere in the tree, including Gateways nested inside non-opaque
Group nodes — but the middleware `rawM 1` of the nested Gateway is absent from the
collection, because `build_routes_middleware` never recurses into an
children of an `Include`. -/
theorem routes_middleware_claim_cex :
    Mw.rawM 1 ∉ build_routes_middleware c6include [] := by
  decide

/-- C6 amended: the route-contributed middleware collection does not walk the
tree — `build_routes_middleware` appends, for a top-level `Gateway`, its
middleware list then the middleware list of its bound handler, while every
`Include` (nested-application boundary or not) contributes nothing and its
children are never visited. -/
theorem routes_middleware_toplevel_only :
    ∀ (r : RouteNode) (acc : List Mw),
      build_routes_middleware r acc = acc ++ topLevelGatewayMw r := by
  intro r acc
  cases r with
  | includeR eh mw app routes => simp [build_routes_middleware, topLevelGatewayMw]
  | gateway mw hmw eh heh =>
      by_cases h : hmw.isEmpty
      · have : hmw = [] := List.isEmpty_iff.mp h
        subst this
        simp [build_routes_middleware, topLevelGatewayMw]
      · simp [build_routes_middleware, topLevelGatewayMw, h]

/-- C5 scenario state: global (declared) middleware `[M0]`, route1 a Gateway
declaring `[M1]`, route2 a Gateway declaring nothing, no built-in
configuration set. -/
def c5state : AppState where
  debug := false
  allowed_hosts := []
  cors_config := Option.none
  csrf_config := Option.none
  session_config := Option.none
  middleware := [Mw.rawM 0]
  router_middleware := []
  exception_handlers := []
  async_exit_config := 0
  routes := [RouteNode.gateway [Mw.rawM 1] [] [] [], RouteNode.gateway [] [] [] []]

/-- C5: the final user middleware list is the built-ins in the fixed order
trusted-host, CORS, CSRF, session (each present only when configured),
followed by the declared application middleware in declaration order,
followed by the route-contributed middleware (the router itself is
constructed with no middleware, so its list is empty); in particular, for the
scenario with global middleware `[M0]`, route1 declaring `[M1]` and route2
declaring none, the final order is `[M0, M1]`. -/
theorem user_middleware_order :
    (∀ st : AppState, st.router_middleware = [] →
      (build_user_middleware_stack st).1 =
        ((if st.allowed_hosts.isEmpty then []
            else [MwEntry.trustedHost st.allowed_hosts])
          ++ (match st.cors_config with
              | some c => [MwEntry.cors c]
              | Option.none => [])
          ++ (match st.csrf_config with
              | some c => [MwEntry.csrf c]
              | Option.none => [])
          ++ (match st.session_config with
              | some c => [MwEntry.session c]
              | Option.none => []))
          ++ (st.middleware.map wrapMw ++ (collectRoutesMiddleware st.routes).map wrapMw))
    ∧ (build_user_middleware_stack c5state).1 = [MwEntry.wrapped 0, MwEntry.wrapped 1] := by
  constructor
  · intro st h
    unfold build_user_middleware_stack
    rw [h]
    by_cases hah : st.allowed_hosts.isEmpty <;>
      cases hc : st.cors_config <;>
        cases hcs : st.csrf_config <;>
          cases hs : st.session_config <;>
            simp [hah, hc, hcs, hs]
  · decide

/-- C5 witness: the general ordering theorem applied at the concrete scenario
state (whose router middleware list is empty) yields the `[M0, M1]` order. -/
theorem user_middleware_order_witness :
    (build_user_middleware_stack c5state).1 =
      (([] : List MwEntry) ++ ([] : List MwEntry) ++ ([] : List MwEntry)
        ++ ([] : List MwEntry))
        ++ (c5state.middleware.map wrapMw
          ++ (collectRoutesMiddleware c5state.routes).map wrapMw) :=
  user_middleware_order.1 c5state rfl

/-- C9 counterexample input: declared middleware `[M0]` and one route
contributing `[M1]`. -/
def c9state : AppState where
  debug := false
  allowed_hosts := []
  cors_config := Option.none
  csrf_config := Option.none
  session_config := Option.none
  middleware := [Mw.rawM 0]
  router_middleware := []
  exception_handlers := []
  async_exit_config := 0
  routes := [RouteNode.gateway [Mw.rawM 1] [] [] []]

/-- C9 counterexample: `build_user_middleware_stack` changes the configuration
record `middleware` field — after the call the middleware list of the application
differs from the snapshot taken at construction, refuting the claim that no
field of the record is ever mutated by the stack-building operations. -/
theorem middleware_field_mutation_cex :
    ((build_user_middleware_stack c9state).2).middleware ≠ c9state.middleware := by
  decide

/-- C9 amended: `build_user_middleware_stack` mutates exactly the `middleware`
field of the record, extending it in place (line 554,
`self.middleware += handlers_middleware`) with the router middleware and the
route-contributed middleware; every other field is left unchanged. -/
theorem middleware_field_mutation_amended :
    ∀ st : AppState,
      (build_user_middleware_stack st).2 =
        { st with
            middleware :=
              st.middleware ++ (st.router_middleware ++ collectRoutesMiddleware st.routes) } :=
  fun _ => rfl

/-- A candidate value for `settings_config`, abstracted to the observations
the validation makes of it: `isinstance(value, EsmeraldAPISettings)`, whether
`get_origin(value)` is non-`None`, whether that origin is a subclass of
`EsmeraldAPISettings`, `inspect.isclass(value)`, whether
`issubclass(value, EsmeraldAPISettings)` holds, and whether the `issubclass`
call raises `TypeError`. -/
structure SettingsCandidate where
  is_instance : Bool
  has_origin : Bool
  origin_subclass : Bool
  is_class : Bool
  is_subclass : Bool
  issubclass_raises : Bool
deriving DecidableEq

/-- Models `is_class_and_subclass` (`utils/helpers.py`, lines 18-28): returns `False`
when the value has no generic origin and is not a class; otherwise tests
`issubclass` (of the origin if present, of the value itself otherwise),
converting a `TypeError` into `False`. -/
def is_class_and_subclass (value : SettingsCandidate) : Bool :=
  if !value.has_origin && !value.is_class then false
  else if value.issubclass_raises then false
  else if value.has_origin then value.origin_subclass
  else value.is_subclass

/-- The errors the constructor prologue can raise: `ImproperlyConfigured`
(with its message) or the `assert` failure. -/
inductive InitError where
  | improperlyConfigured (msg : String)
  | assertionError (msg : String)
deriving DecidableEq

/-- The validation prologue of `Esmerald.__init__` (`applications.py`, lines
173-192), run before the configuration merge, before the `Router` is built
and before any route is registered: the `settings_config` check (an object is
truthy here, so `if settings_config:` is modelled by presence), the
lifespan/hooks `assert`, and the `allow_origins`/`cors_config` exclusivity
check.  On success it returns the resolved `self.settings_config`. -/
def init_checks (settings_config : Option SettingsCandidate) (lifespan : Option Nat)
    (on_startup : Option (List Nat)) (on_shutdown : Option (List Nat))
    (allow_origins : Option (List Nat)) (cors_config : Option Nat) :
    Except InitError (Option SettingsCandidate) :=
  let step1 : Except InitError (Option SettingsCandidate) :=
    match settings_config with
    | some sc =>
        if !sc.is_instance || !is_class_and_subclass sc then
          Except.error
            (InitError.improperlyConfigured
              "settings_config must be a subclass of EsmeraldSettings")
        else if sc.is_instance then Except.ok (some sc)
        else if is_class_and_subclass sc then Except.ok (some sc)
        else Except.ok Option.none
    | Option.none => Except.ok Option.none
  match step1 with
  | Except.error e => Except.error e
  | Except.ok selfSettings =>
      if !(lifespan.isNone || (on_startup.isNone && on_shutdown.isNone)) then
        Except.error
          (InitError.assertionError
            "Use either lifespan or on_startup/on_shutdown, not both.")
      else if (match allow_origins with
               | some l => !l.isEmpty
               | Option.none => false) && cors_config.isSome then
        Except.error
          (InitError.improperlyConfigured
            "It can be only allow_origins or cors_config but not both.")
      else Except.ok selfSettings

/-- C7: for every non-empty origin list and every CORS configuration object,
supplying both to the constructor fails with `ImproperlyConfigured` during the
validation prologue — synchronously, before the `Router` (and hence any
route) is built. -/
theorem allow_origins_cors_conflict :
    ∀ (origins : List Nat) (cfg : Nat), origins ≠ [] →
      init_checks Option.none Option.none Option.none Option.none (some origins) (some cfg) =
        Except.error
          (InitError.improperlyConfigured
            "It can be only allow_origins or cors_config but not both.") := by
  intro origins cfg h
  unfold init_checks
  simp [List.isEmpty_iff, h]

/-- C7 witness: the conflict fires at the concrete pair
`allow_origins = [1]`, `cors_config = 0`. -/
theorem allow_origins_cors_conflict_witness :
    init_checks Option.none Option.none Option.none Option.none (some [1]) (some 0) =
      Except.error
        (InitError.improperlyConfigured
          "It can be only allow_origins or cors_config but not both.") :=
  allow_origins_cors_conflict [1] 0 (by decide)

/-- C8: supplying a lifespan callback together with any non-`None`
`on_startup` or `on_shutdown` hook list makes the constructor prologue fail
with the `assert` error — the conflict is reported, never silently resolved. -/
theorem lifespan_hooks_conflict :
    ∀ (ls : Nat) (s1 s2 : Option (List Nat)) (ao : Option (List Nat)) (cc : Option Nat),
      s1 ≠ Option.none ∨ s2 ≠ Option.none →
        init_checks Option.none (some ls) s1 s2 ao cc =
          Except.error
            (InitError.assertionError
              "Use either lifespan or on_startup/on_shutdown, not both.") := by
  intro ls s1 s2 ao cc h
  unfold init_checks
  rcases h with h | h
  · cases s1 with
    | none => exact absurd rfl h
    | some l => simp
  · cases s2 with
    | none => exact absurd rfl h
    | some l => simp

/-- C8 witness: the conflict fires at the concrete input `lifespan = 0`,
`on_startup = some []`. -/
theorem lifespan_hooks_conflict_witness :
    init_checks Option.none (some 0) (some []) Option.none Option.none Option.none =
      Except.error
        (InitError.assertionError
          "Use either lifespan or on_startup/on_shutdown, not both.") :=
  lifespan_hooks_conflict 0 (some []) Option.none Option.none Option.none
    (Or.inl (by decide))

/-- C10: every value passed as `settings_config` that is either not an
`EsmeraldAPISettings` instance (so every class, valid subclasses included) or
is an ordinary instance (not a class, no generic origin) makes construction
raise `ImproperlyConfigured`, because `not isinstance(...) or not
is_class_and_subclass(...)` is satisfied by both kinds; and
`is_class_and_subclass` itself returns `False` (rather than raising) on
non-class, non-generic inputs. -/
theorem settings_config_always_rejected :
    (∀ (sc : SettingsCandidate) (ls : Option Nat) (s1 s2 : Option (List Nat))
        (ao : Option (List Nat)) (cc : Option Nat),
      sc.is_instance = false ∨ (sc.has_origin = false ∧ sc.is_class = false) →
        init_checks (some sc) ls s1 s2 ao cc =
          Except.error
            (InitError.improperlyConfigured
              "settings_config must be a subclass of EsmeraldSettings"))
    ∧ (∀ v : SettingsCandidate, v.has_origin = false → v.is_class = false →
        is_class_and_subclass v = false) := by
  constructor
  · intro sc ls s1 s2 ao cc h
    unfold init_checks
    rcases h with h | ⟨h1, h2⟩
    · simp [h]
    · simp [is_class_and_subclass, h1, h2]
  · intro v h1 h2
    simp [is_class_and_subclass, h1, h2]

/-- C10 witness: both a valid `EsmeraldAPISettings` instance (an instance, not
a class, no generic origin) and a valid strict subclass (a class, not an
instance) are rejected with `ImproperlyConfigured`; and
`is_class_and_subclass` returns `False` on the instance. -/
theorem settings_config_always_rejected_witness :
    init_checks (some ⟨true, false, false, false, false, false⟩) Option.none Option.none
        Option.none Option.none Option.none =
      Except.error
        (InitError.improperlyConfigured
          "settings_config must be a subclass of EsmeraldSettings")
    ∧ init_checks (some ⟨false, false, false, true, true, false⟩) Option.none Option.none
        Option.none Option.none Option.none =
      Except.error
        (InitError.improperlyConfigured
          "settings_config must be a subclass of EsmeraldSettings")
    ∧ is_class_and_subclass ⟨true, false, false, false, false, false⟩ = false :=
  ⟨settings_config_always_rejected.1 ⟨true, false, false, false, false, false⟩ Option.none
      Option.none Option.none Option.none Option.none (Or.inr ⟨rfl, rfl⟩),
    settings_config_always_rejected.1 ⟨false, false, false, true, true, false⟩ Option.none
      Option.none Option.none Option.none Option.none (Or.inl rfl),
    settings_config_always_rejected.2 ⟨true, false, false, false, false, false⟩ rfl rfl⟩
